import Mathlib

/-!
Shallow embedding of the review-analysis pipeline of `src/app.py`
(a Streamlit app performing zero-shot aspect-based sentiment analysis).

The embedded parts are:
* the static multilingual configuration `CONFIG` (the per-theme candidate
  label lists and the label -> (sentiment text, icon, color) mapping, for
  the English and French configurations);
* the analysis function `analyze_aspects(text, config)`;
* the analyze-button handler, which rejects blank input before calling
  `analyze_aspects`.

Modelling conventions:
* Python dicts that are iterated in insertion order are association lists.
* A dict subscript `d[k]` that can raise `KeyError` (and a list subscript
  `l[0]` that can raise `IndexError`) is an `Option`-valued lookup; a raised
  exception is the value `none` propagating out of the function.
* The external zero-shot classifier (`transformers` pipeline) is a function
  parameter.  Its output dict `{ "labels": ..., "scores": ... }` is the
  structure `ZSOutput`; scores, `float` in Python, are modelled as `ℚ`
  (the code never computes with them, it only passes them through).
* To express call-counting (which model calls happen) and process state,
  the classifier parameter also receives the index of the call being made,
  and the analysis function threads a `ProcState` holding the shared
  configuration and the number of classifier calls made so far.
-/

/-- The set of Unicode code points stripped by Python's `str.strip()`
(the characters for which `str.isspace` holds). -/
def pySpaceCodes : List Nat :=
  [0x09, 0x0a, 0x0b, 0x0c, 0x0d, 0x1c, 0x1d, 0x1e, 0x1f, 0x20,
   0x85, 0xa0, 0x1680,
   0x2000, 0x2001, 0x2002, 0x2003, 0x2004, 0x2005, 0x2006, 0x2007,
   0x2008, 0x2009, 0x200a, 0x2028, 0x2029, 0x202f, 0x205f, 0x3000]

/-- Whether a character counts as whitespace for Python's `str.strip()`. -/
def isPySpace (c : Char) : Bool :=
  pySpaceCodes.contains c.toNat

/-- Python's `s.strip()`: remove leading and trailing whitespace. -/
def pyStrip (s : String) : String :=
  String.mk (((s.data.dropWhile isPySpace).reverse.dropWhile isPySpace).reverse)

/-- Whether `sub` occurs as a contiguous sublist of `l`. -/
def listContains (sub : List Char) : List Char → Bool
  | [] => sub.isEmpty
  | a :: l => sub.isPrefixOf (a :: l) || listContains sub l

/-- Python's substring test `sub in s`. -/
def pyContains (sub s : String) : Bool :=
  listContains sub.data s.data

/-- Per-aspect static configuration: the candidate labels handed to the
zero-shot classifier and the mapping from a returned label to the UI
triple (sentiment text, icon, color).  Mirrors one entry of
`CONFIG[lang]["aspects"]` in `src/app.py`. -/
structure AspectData where
  labels : List String
  mapping : List (String × (String × String × String))
deriving DecidableEq, Repr

/-- One language's configuration: the ordered dict of aspects
(`CONFIG[lang]["aspects"]`).  The purely presentational string fields of
`CONFIG[lang]` (title, button captions, example texts) are not part of the
pipeline and are omitted. -/
structure LangConfig where
  aspects : List (String × AspectData)
deriving DecidableEq, Repr

/-- The `"Delivery"` entry of `CONFIG["English"]["aspects"]`. -/
def deliveryData : AspectData :=
  { labels := ["satisfied with delivery", "dissatisfied with delivery",
               "neutral about delivery", "delivery not mentioned"],
    mapping :=
      [ ("satisfied with delivery", ("Positive", "✅", "green")),
        ("dissatisfied with delivery", ("Negative", "❌", "red")),
        ("neutral about delivery", ("Neutral", "⚪", "grey")),
        ("delivery not mentioned", ("Not Detected", "➖", "lightgrey")) ] }

/-- The `"Customer Service"` entry of `CONFIG["English"]["aspects"]`. -/
def customerServiceData : AspectData :=
  { labels := ["satisfied with customer service",
               "dissatisfied with customer service",
               "neutral about customer service",
               "customer service not mentioned"],
    mapping :=
      [ ("satisfied with customer service", ("Positive", "✅", "green")),
        ("dissatisfied with customer service", ("Negative", "❌", "red")),
        ("neutral about customer service", ("Neutral", "⚪", "grey")),
        ("customer service not mentioned", ("Not Detected", "➖", "lightgrey")) ] }

/-- The `"Product"` entry of `CONFIG["English"]["aspects"]`. -/
def productData : AspectData :=
  { labels := ["satisfied with product", "dissatisfied with product",
               "neutral about product", "product not mentioned"],
    mapping :=
      [ ("satisfied with product", ("Positive", "✅", "green")),
        ("dissatisfied with product", ("Negative", "❌", "red")),
        ("neutral about product", ("Neutral", "⚪", "grey")),
        ("product not mentioned", ("Not Detected", "➖", "lightgrey")) ] }

/-- The `"Livraison"` entry of `CONFIG["Français"]["aspects"]`. -/
def livraisonData : AspectData :=
  { labels := ["satisfait de la livraison", "insatisfait de la livraison",
               "neutre sur la livraison", "livraison non mentionnée"],
    mapping :=
      [ ("satisfait de la livraison", ("Positif", "✅", "green")),
        ("insatisfait de la livraison", ("Négatif", "❌", "red")),
        ("neutre sur la livraison", ("Neutre", "⚪", "grey")),
        ("livraison non mentionnée", ("Non Détecté", "➖", "lightgrey")) ] }

/-- The `"Service Client"` entry of `CONFIG["Français"]["aspects"]`. -/
def serviceClientData : AspectData :=
  { labels := ["satisfait du service client", "insatisfait du service client",
               "neutre sur le service client", "service client non mentionné"],
    mapping :=
      [ ("satisfait du service client", ("Positif", "✅", "green")),
        ("insatisfait du service client", ("Négatif", "❌", "red")),
        ("neutre sur le service client", ("Neutre", "⚪", "grey")),
        ("service client non mentionné", ("Non Détecté", "➖", "lightgrey")) ] }

/-- The `"Produit"` entry of `CONFIG["Français"]["aspects"]`. -/
def produitData : AspectData :=
  { labels := ["satisfait du produit", "insatisfait du produit",
               "neutre sur le produit", "produit non mentionné"],
    mapping :=
      [ ("satisfait du produit", ("Positif", "✅", "green")),
        ("insatisfait du produit", ("Négatif", "❌", "red")),
        ("neutre sur le produit", ("Neutre", "⚪", "grey")),
        ("produit non mentionné", ("Non Détecté", "➖", "lightgrey")) ] }

/-- `CONFIG["English"]` of `src/app.py` (its `aspects` table, in dict
insertion order). -/
def CONFIG_English : LangConfig :=
  { aspects := [("Delivery", deliveryData),
                ("Customer Service", customerServiceData),
                ("Product", productData)] }

/-- `CONFIG["Français"]` of `src/app.py` (its `aspects` table, in dict
insertion order). -/
def CONFIG_Francais : LangConfig :=
  { aspects := [("Livraison", livraisonData),
                ("Service Client", serviceClientData),
                ("Produit", produitData)] }

/-- Output of one zero-shot classifier call: the dict
`{ "labels": [...], "scores": [...] }`, labels ranked best first. -/
structure ZSOutput where
  labels : List String
  scores : List ℚ
deriving DecidableEq, Repr

/-- The external classifier: given the index of the call being made (the
number of classifier calls the process has already performed), the text,
the candidate labels, and the `multi_label` flag, it returns a ranked
output.  The call index lets a hypothetical classifier depend on call
history; a deterministic classifier ignores it. -/
def SClassifier : Type :=
  Nat → String → List String → Bool → ZSOutput

/-- One per-aspect entry of the `results` dict built by
`analyze_aspects`. -/
structure AspectResult where
  label : String
  score : ℚ
  sentiment : String
  icon : String
  color : String
  is_detected : Bool
deriving DecidableEq, Repr

/-- The `is_detected` expression of `src/app.py` line 163:
`"not mentioned" not in top_label and "non mentionnée" not in top_label
and "non mentionné" not in top_label`. -/
def detectFlag (topLabel : String) : Bool :=
  !(pyContains "not mentioned" topLabel) &&
  !(pyContains "non mentionnée" topLabel) &&
  !(pyContains "non mentionné" topLabel)

/-- Lines 150-164 of `src/app.py`: take the top label and score of a
classifier output (`output["labels"][0]`, `output["scores"][0]`), look the
label up in the aspect's mapping (`aspect_data["mapping"][top_label]`, a
`KeyError` — `none` — if absent), and build the per-aspect result dict. -/
def resolveAspect (data : AspectData) (out : ZSOutput) : Option AspectResult := do
  let topLabel ← out.labels.head?
  let topScore ← out.scores.head?
  let v ← data.mapping.lookup topLabel
  some { label := topLabel, score := topScore,
         sentiment := v.1, icon := v.2.1, color := v.2.2,
         is_detected := detectFlag topLabel }

/-- The loop of `analyze_aspects`: iterate over the aspects dict in order,
run one classifier call per aspect (with `multi_label=False`), resolve the
top label, and collect the per-aspect results.  Threads the classifier
call counter; a `KeyError`/`IndexError` (`none`) aborts the remaining
iterations, as the raised exception would. -/
def runAspects (c : SClassifier) (text : String) :
    List (String × AspectData) → Nat →
    Option (List (String × AspectResult)) × Nat
  | [], n => (some [], n)
  | (name, data) :: rest, n =>
    let out := c n text data.labels false
    match resolveAspect data out with
    | none => (none, n + 1)
    | some r =>
      match runAspects c text rest (n + 1) with
      | (none, m) => (none, m)
      | (some rs, m) => (some ((name, r) :: rs), m)

/-- Process-wide state: the shared configuration (read-only in the code)
and the number of classifier calls made so far. -/
structure ProcState where
  config : LangConfig
  nCalls : Nat
deriving DecidableEq, Repr

/-- `analyze_aspects(text, config)` of `src/app.py`, with the classifier
and the process state explicit.  Returns the ordered `results` entries
(`none` models an uncaught `KeyError`/`IndexError`) and the state after
the call. -/
def analyzeAspectsS (c : SClassifier) (text : String) (st : ProcState) :
    Option (List (String × AspectResult)) × ProcState :=
  match runAspects c text st.config.aspects st.nCalls with
  | (res, n) => (res, { config := st.config, nCalls := n })

/-- `analyze_aspects` as a pure function of a history-independent
classifier, starting from a zero call counter. -/
def analyze_aspects (c : String → List String → Bool → ZSOutput)
    (text : String) (config : LangConfig) :
    Option (List (String × AspectResult)) :=
  (analyzeAspectsS (fun _ => c) text { config := config, nCalls := 0 }).1

/-- What the analyze-button handler displays. -/
inductive AppOutput where
  | warning
  | results (rs : List (String × AspectResult))
  | failure
deriving DecidableEq, Repr

/-- Lines 191-197 of `src/app.py`: the analyze-button handler.  If the
input text strips to empty it shows a warning and performs no analysis;
otherwise it runs `analyze_aspects` on the (unstripped) input.
`AppOutput.failure` models an exception escaping `analyze_aspects`. -/
def analyzeButtonHandler (c : SClassifier) (input_text : String)
    (st : ProcState) : AppOutput × ProcState :=
  if pyStrip input_text = "" then
    (AppOutput.warning, st)
  else
    match analyzeAspectsS c input_text st with
    | (none, st2) => (AppOutput.failure, st2)
    | (some rs, st2) => (AppOutput.results rs, st2)

/-- The spec-level sentiment enumeration of `ThemeResult.sentiment`. -/
inductive Sentiment where
  | negative
  | neutral
  | positive
deriving DecidableEq, Repr

/-- Refinement view: the optional spec-level sentiment carried by a
per-aspect result's `sentiment` text.  The sentiment-bearing texts of the
shipped mappings are `Positive`/`Negative`/`Neutral` and their French
forms; the `Not Detected`/`Non Détecté` texts carry no sentiment. -/
def sentimentView (sentimentText : String) : Option Sentiment :=
  if sentimentText = "Positive" ∨ sentimentText = "Positif" then
    some Sentiment.positive
  else if sentimentText = "Negative" ∨ sentimentText = "Négatif" then
    some Sentiment.negative
  else if sentimentText = "Neutral" ∨ sentimentText = "Neutre" then
    some Sentiment.neutral
  else
    none

/-- Whether a candidate label is the aspect's "theme not mentioned"
sentinel: the label the aspect's mapping sends to the not-detected UI
text (`"Not Detected"` / `"Non Détecté"`). -/
def isSentinel (data : AspectData) (l : String) : Bool :=
  match data.mapping.lookup l with
  | some v => v.1 = "Not Detected" || v.1 = "Non Détecté"
  | none => false

/-- The aspect entries of both shipped language configurations. -/
def bothAspects : List (String × AspectData) :=
  CONFIG_English.aspects ++ CONFIG_Francais.aspects

lemma resolveAspect_cons (data : AspectData) (l : String) (s : ℚ)
    (ls : List String) (ss : List ℚ) :
    resolveAspect data { labels := l :: ls, scores := s :: ss } =
      (data.mapping.lookup l).bind
        (fun v => some { label := l, score := s, sentiment := v.1,
                         icon := v.2.1, color := v.2.2,
                         is_detected := detectFlag l }) := rfl

lemma lookup_eq_none_of_not_mem {β : Type} (m : List (String × β))
    (l : String) (h : l ∉ m.map Prod.fst) : m.lookup l = none := by
  induction m with
  | nil => rfl
  | cons p t ih =>
    simp only [List.map_cons, List.mem_cons, not_or] at h
    obtain ⟨h1, h2⟩ := h
    obtain ⟨k, v⟩ := p
    simp only [List.lookup]
    have hk : (l == k) = false := beq_eq_false_iff_ne.mpr h1
    rw [hk]
    exact ih h2

/-- Totality of every shipped mapping over its label list (checked over
the concrete configuration tables). -/
lemma mapping_total_core :
    ∀ p ∈ bothAspects, ∀ l ∈ p.2.labels,
      (p.2.mapping.lookup l).isSome = true := by decide

/-- Every key of every shipped mapping is one of the aspect's candidate
labels (checked over the concrete configuration tables). -/
lemma keys_sub_labels_core :
    ∀ p ∈ bothAspects, ∀ k ∈ p.2.mapping.map Prod.fst,
      k ∈ p.2.labels := by decide

lemma mem_bothAspects_of_cfg {cfg : LangConfig}
    (hcfg : cfg = CONFIG_English ∨ cfg = CONFIG_Francais)
    {p : String × AspectData} (hp : p ∈ cfg.aspects) : p ∈ bothAspects := by
  rcases hcfg with h | h <;> subst h
  · exact List.mem_append_left _ hp
  · exact List.mem_append_right _ hp

lemma analyzeAspectsS_fst (c : SClassifier) (text : String) (st : ProcState) :
    (analyzeAspectsS c text st).1 =
      (runAspects c text st.config.aspects st.nCalls).1 := by
  rcases hx : runAspects c text st.config.aspects st.nCalls with ⟨res, n⟩
  simp [analyzeAspectsS, hx]

lemma resolveAspect_heads_congr (data : AspectData) (out1 out2 : ZSOutput)
    (h1 : out1.labels.head? = out2.labels.head?)
    (h2 : out1.scores.head? = out2.scores.head?) :
    resolveAspect data out1 = resolveAspect data out2 := by
  unfold resolveAspect
  rw [h1, h2]

/-- If every aspect of the list resolves successfully (whatever the call
index), the loop returns one result per aspect, keyed by the aspect names
in order. -/
lemma runAspects_names (c : SClassifier) (text : String) :
    ∀ (aspects : List (String × AspectData)) (n : Nat),
      (∀ p ∈ aspects, ∀ k,
        (resolveAspect p.2 (c k text p.2.labels false)).isSome = true) →
      ∃ rs, (runAspects c text aspects n).1 = some rs ∧
        rs.map Prod.fst = aspects.map Prod.fst := by
  intro aspects
  induction aspects with
  | nil => exact fun n _ => ⟨[], rfl, rfl⟩
  | cons p rest ih =>
    intro n h
    obtain ⟨name, data⟩ := p
    obtain ⟨r, hr⟩ := Option.isSome_iff_exists.mp
      (h (name, data) (List.mem_cons_self _ _) n)
    obtain ⟨rs, hrs, hnames⟩ :=
      ih (n + 1) (fun q hq k => h q (List.mem_cons_of_mem _ hq) k)
    refine ⟨(name, r) :: rs, ?_, by simp [hnames]⟩
    simp only [runAspects, hr]
    rcases h2 : runAspects c text rest (n + 1) with ⟨res, cnt⟩
    rw [h2] at hrs
    simp only at hrs
    subst hrs
    rfl

/-- The visible result of the loop does not depend on the starting call
counter, provided the classifier treats every call index alike. -/
lemma runAspects_fst_congr (c : SClassifier) (text : String)
    (hdet : ∀ n m t ls b, c n t ls b = c m t ls b) :
    ∀ (aspects : List (String × AspectData)) (n m : Nat),
      (runAspects c text aspects n).1 = (runAspects c text aspects m).1 := by
  intro aspects
  induction aspects with
  | nil => intro n m; rfl
  | cons p rest ih =>
    intro n m
    obtain ⟨name, data⟩ := p
    simp only [runAspects]
    rw [hdet n m text data.labels false]
    cases hr : resolveAspect data (c m text data.labels false) with
    | none => rfl
    | some r =>
      rcases h1 : runAspects c text rest (n + 1) with ⟨res1, k1⟩
      rcases h2 : runAspects c text rest (m + 1) with ⟨res2, k2⟩
      have hres : res1 = res2 := by
        have := ih (n + 1) (m + 1)
        rw [h1, h2] at this
        exact this
      subst hres
      cases res1 <;> rfl

/-- Two classifiers that agree on the top label and top score of every
`multi_label=False` call drive the loop to the same outcome. -/
lemma runAspects_congr (c1 c2 : SClassifier) (text : String)
    (h : ∀ n ls, (c1 n text ls false).labels.head? =
                   (c2 n text ls false).labels.head? ∧
                 (c1 n text ls false).scores.head? =
                   (c2 n text ls false).scores.head?) :
    ∀ (aspects : List (String × AspectData)) (n : Nat),
      runAspects c1 text aspects n = runAspects c2 text aspects n := by
  intro aspects
  induction aspects with
  | nil => intro n; rfl
  | cons p rest ih =>
    intro n
    obtain ⟨name, data⟩ := p
    simp only [runAspects]
    rw [resolveAspect_heads_congr data _ _ (h n data.labels).1 (h n data.labels).2]
    cases hr : resolveAspect data (c2 n text data.labels false) with
    | none => rfl
    | some r => rw [ih (n + 1)]

lemma analyzeAspectsS_config (c : SClassifier) (text : String)
    (st : ProcState) : (analyzeAspectsS c text st).2.config = st.config := by
  rcases hx : runAspects c text st.config.aspects st.nCalls with ⟨res, n⟩
  simp [analyzeAspectsS, hx]

/-- On every shipped sentinel label: the substring detection flag is
`false` and the mapped sentiment text carries no sentiment (checked over
the concrete configuration tables). -/
lemma sentinel_core :
    ∀ p ∈ bothAspects, ∀ l ∈ p.2.labels, isSentinel p.2 l = true →
      detectFlag l = false ∧
      (p.2.mapping.lookup l).map (fun v => sentimentView v.1) =
        some none := by decide

/-- On every shipped non-sentinel label: the substring detection flag is
`true` and the mapping lookup succeeds (checked over the concrete
configuration tables). -/
lemma nonsentinel_core :
    ∀ p ∈ bothAspects, ∀ l ∈ p.2.labels, isSentinel p.2 l = false →
      detectFlag l = true ∧ (p.2.mapping.lookup l).isSome = true := by decide

/-- On every shipped candidate label the substring detection flag equals
the negation of sentinel-hood (checked over the concrete configuration
tables). -/
lemma detect_iff_sentinel_core :
    ∀ p ∈ bothAspects, ∀ l ∈ p.2.labels,
      detectFlag l = !(isSentinel p.2 l) := by decide

/-- C1: for every theme of either shipped configuration, resolving the
theme's "not mentioned" sentinel label as the classifier's top label
yields a result that is not detected and whose sentiment text carries no
spec-level sentiment (`sentimentView` is `none`); so sentiment is never
populated for a theme that resolved to its sentinel label. -/
theorem sentinel_label_yields_not_detected :
    ∀ cfg, (cfg = CONFIG_English ∨ cfg = CONFIG_Francais) →
    ∀ p ∈ cfg.aspects, ∀ l ∈ p.2.labels, isSentinel p.2 l = true →
    ∀ (s : ℚ) (ls : List String) (ss : List ℚ) (r : AspectResult),
      resolveAspect p.2 { labels := l :: ls, scores := s :: ss } = some r →
      r.is_detected = false ∧ sentimentView r.sentiment = none := by
  intro cfg hcfg p hp l hl hsent s ls ss r hres
  obtain ⟨hflag, hmap⟩ := sentinel_core p (mem_bothAspects_of_cfg hcfg hp) l hl hsent
  rw [resolveAspect_cons] at hres
  cases hv : p.2.mapping.lookup l with
  | none => rw [hv] at hres; simp at hres
  | some v =>
    rw [hv] at hres
    simp only [Option.some_bind, Option.some.injEq] at hres
    rw [hv] at hmap
    simp at hmap
    subst hres
    exact ⟨hflag, hmap⟩

/-- The result used by the witness of C1. -/
def rSentinel : AspectResult :=
  { label := "delivery not mentioned", score := 1, sentiment := "Not Detected",
    icon := "➖", color := "lightgrey", is_detected := false }

theorem sentinel_label_yields_not_detected_witness :
    rSentinel.is_detected = false ∧ sentimentView rSentinel.sentiment = none :=
  sentinel_label_yields_not_detected CONFIG_English (Or.inl rfl)
    ("Delivery", deliveryData) (by decide) "delivery not mentioned" (by decide)
    (by decide) 1 [] [] rSentinel (by decide)

/-- C2: blank (empty or whitespace-only) input is rejected by the analyze
button handler: it shows the warning and leaves the process state — in
particular the classifier call counter — unchanged, for every classifier;
`analyze_aspects` is never run and no classifier call occurs. -/
theorem blank_input_rejected_before_inference :
    ∀ (c : SClassifier) (st : ProcState) (input_text : String),
      pyStrip input_text = "" →
      analyzeButtonHandler c input_text st = (AppOutput.warning, st) := by
  intro c st t h
  unfold analyzeButtonHandler
  rw [if_pos h]

/-- A classifier used by witnesses of C2. -/
def blankClassifier : SClassifier :=
  fun _ _ ls _ => { labels := ls, scores := [1, 0, 0, 0] }

theorem blank_input_rejected_before_inference_witness :
    analyzeButtonHandler blankClassifier "  \t\n " { config := CONFIG_English, nCalls := 0 } =
      (AppOutput.warning, { config := CONFIG_English, nCalls := 0 }) :=
  blank_input_rejected_before_inference blankClassifier
    { config := CONFIG_English, nCalls := 0 } "  \t\n " (by decide)

/-- C4: for every theme of either shipped configuration, a top label that
is not one of the theme's candidate labels makes label-to-verdict
resolution fail (`none`, modelling the raised `KeyError`); it is never
silently coerced to a default verdict. -/
theorem unmapped_top_label_fails_loudly :
    ∀ cfg, (cfg = CONFIG_English ∨ cfg = CONFIG_Francais) →
    ∀ p ∈ cfg.aspects, ∀ l, l ∉ p.2.labels →
    ∀ (s : ℚ) (ls : List String) (ss : List ℚ),
      resolveAspect p.2 { labels := l :: ls, scores := s :: ss } = none := by
  intro cfg hcfg p hp l hl s ls ss
  rw [resolveAspect_cons]
  have hnone : p.2.mapping.lookup l = none := by
    apply lookup_eq_none_of_not_mem
    intro hmem
    exact hl (keys_sub_labels_core p (mem_bothAspects_of_cfg hcfg hp) l hmem)
  rw [hnone]
  rfl

theorem unmapped_top_label_fails_loudly_witness :
    resolveAspect deliveryData { labels := ["banana"], scores := [1] } = none :=
  unmapped_top_label_fails_loudly CONFIG_English (Or.inl rfl)
    ("Delivery", deliveryData) (by decide) "banana" (by decide) 1 [] []

/-- C5: for every theme of either shipped configuration, a
sentiment-bearing (non-sentinel) top label with score `s` resolves to a
detected result whose verdict triple is the theme's static mapping entry
for that label and whose confidence is exactly `s`. -/
theorem sentiment_label_yields_detected_with_mapped_verdict :
    ∀ cfg, (cfg = CONFIG_English ∨ cfg = CONFIG_Francais) →
    ∀ p ∈ cfg.aspects, ∀ l ∈ p.2.labels, isSentinel p.2 l = false →
    ∀ (s : ℚ) (ls : List String) (ss : List ℚ),
      ∃ r, resolveAspect p.2 { labels := l :: ls, scores := s :: ss } = some r ∧
        r.is_detected = true ∧ r.score = s ∧ r.label = l ∧
        p.2.mapping.lookup l = some (r.sentiment, r.icon, r.color) := by
  intro cfg hcfg p hp l hl hsent s ls ss
  obtain ⟨hflag, hsome⟩ := nonsentinel_core p (mem_bothAspects_of_cfg hcfg hp) l hl hsent
  obtain ⟨v, hv⟩ := Option.isSome_iff_exists.mp hsome
  refine ⟨{ label := l, score := s, sentiment := v.1, icon := v.2.1,
            color := v.2.2, is_detected := detectFlag l }, ?_, hflag, rfl, rfl, ?_⟩
  · rw [resolveAspect_cons, hv]
    rfl
  · rw [hv]

theorem sentiment_label_yields_detected_with_mapped_verdict_witness :
    ∃ r, resolveAspect deliveryData
        { labels := ["dissatisfied with delivery"], scores := [1] } = some r ∧
      r.is_detected = true ∧ r.score = 1 ∧ r.label = "dissatisfied with delivery" ∧
      deliveryData.mapping.lookup "dissatisfied with delivery" =
        some (r.sentiment, r.icon, r.color) :=
  sentiment_label_yields_detected_with_mapped_verdict CONFIG_English (Or.inl rfl)
    ("Delivery", deliveryData) (by decide) "dissatisfied with delivery" (by decide)
    (by decide) 1 [] []

/-- C6: for every theme of either shipped configuration the mapping is
total over the candidate label list: every candidate label looks up
successfully, so the resolution error branch cannot fire when the top
label is drawn from the candidate list. -/
theorem mapping_total_over_labels :
    ∀ cfg, (cfg = CONFIG_English ∨ cfg = CONFIG_Francais) →
    ∀ p ∈ cfg.aspects, ∀ l ∈ p.2.labels,
      (p.2.mapping.lookup l).isSome = true ∧
      ∀ (s : ℚ) (ls : List String) (ss : List ℚ),
        resolveAspect p.2 { labels := l :: ls, scores := s :: ss } ≠ none := by
  intro cfg hcfg p hp l hl
  have hsome := mapping_total_core p (mem_bothAspects_of_cfg hcfg hp) l hl
  refine ⟨hsome, ?_⟩
  intro s ls ss
  rw [resolveAspect_cons]
  obtain ⟨v, hv⟩ := Option.isSome_iff_exists.mp hsome
  rw [hv]
  simp

theorem mapping_total_over_labels_witness :
    (livraisonData.mapping.lookup "livraison non mentionnée").isSome = true ∧
    resolveAspect livraisonData
      { labels := ["livraison non mentionnée"], scores := [1] } ≠ none := by
  have h := mapping_total_over_labels CONFIG_Francais (Or.inr rfl)
    ("Livraison", livraisonData) (by decide) "livraison non mentionnée" (by decide)
  exact ⟨h.1, h.2 1 [] []⟩

/-- C10: detection is computed by the substring test of line 163 (the top
label contains none of "not mentioned", "non mentionnée", "non
mentionné"), and on every candidate label of both shipped configurations
this coincides with not being the theme's sentinel label (the label
mapped to the not-detected verdict text). -/
theorem substring_detection_coincides_with_sentinel :
    ∀ cfg, (cfg = CONFIG_English ∨ cfg = CONFIG_Francais) →
    ∀ p ∈ cfg.aspects, ∀ l ∈ p.2.labels,
    ∀ (s : ℚ) (ls : List String) (ss : List ℚ) (r : AspectResult),
      resolveAspect p.2 { labels := l :: ls, scores := s :: ss } = some r →
      (r.is_detected = true ↔ isSentinel p.2 l = false) := by
  intro cfg hcfg p hp l hl s ls ss r hres
  have hcore := detect_iff_sentinel_core p (mem_bothAspects_of_cfg hcfg hp) l hl
  rw [resolveAspect_cons] at hres
  cases hv : p.2.mapping.lookup l with
  | none => rw [hv] at hres; simp at hres
  | some v =>
    rw [hv] at hres
    simp only [Option.some_bind, Option.some.injEq] at hres
    subst hres
    show detectFlag l = true ↔ isSentinel p.2 l = false
    rw [hcore]
    cases isSentinel p.2 l <;> simp

/-- The result used by the witness of C10. -/
def rDetected : AspectResult :=
  { label := "satisfied with product", score := 1, sentiment := "Positive",
    icon := "✅", color := "green", is_detected := true }

theorem substring_detection_coincides_with_sentinel_witness :
    rDetected.is_detected = true ↔ isSentinel productData "satisfied with product" = false :=
  substring_detection_coincides_with_sentinel CONFIG_English (Or.inl rfl)
    ("Product", productData) (by decide) "satisfied with product" (by decide)
    1 [] [] rDetected (by decide)

/-- C3: for every non-empty input text and any classifier that, per the
zero-shot contract, returns a non-empty ranked output whose top label is
one of the candidate labels it was given, `analyze_aspects` over the
English configuration returns exactly one result per theme, keyed by the
theme names in the fixed order Delivery, Customer Service, Product. -/
theorem analyze_returns_one_result_per_theme_in_order :
    ∀ (c : String → List String → Bool → ZSOutput) (text : String),
      text ≠ "" →
      (∀ p ∈ CONFIG_English.aspects,
        ∃ (l : String) (s : ℚ) (ls : List String) (ss : List ℚ),
        c text p.2.labels false = { labels := l :: ls, scores := s :: ss } ∧
        l ∈ p.2.labels) →
      ∃ rs, analyze_aspects c text CONFIG_English = some rs ∧
        rs.map Prod.fst = ["Delivery", "Customer Service", "Product"] := by
  intro c text _ h
  have hres : ∀ p ∈ CONFIG_English.aspects, ∀ (k : Nat),
      (resolveAspect p.2 ((fun (_ : Nat) => c) k text p.2.labels false)).isSome = true := by
    intro p hp k
    obtain ⟨l, s, ls, ss, hc, hl⟩ := h p hp
    show (resolveAspect p.2 (c text p.2.labels false)).isSome = true
    rw [hc, resolveAspect_cons]
    obtain ⟨v, hv⟩ := Option.isSome_iff_exists.mp
      (mapping_total_core p (List.mem_append_left _ hp) l hl)
    rw [hv]
    rfl
  obtain ⟨rs, h1, h2⟩ :=
    runAspects_names (fun _ => c) text CONFIG_English.aspects 0 hres
  refine ⟨rs, ?_, h2⟩
  rw [analyze_aspects, analyzeAspectsS_fst]
  exact h1

/-- A classifier used by the witness of C3: it echoes the candidate list,
so its top label is the first candidate. -/
def echoClassifier : String → List String → Bool → ZSOutput :=
  fun _ ls _ => { labels := ls, scores := [1, 0, 0, 0] }

theorem analyze_returns_one_result_per_theme_in_order_witness :
    ∃ rs, analyze_aspects echoClassifier "Great service" CONFIG_English = some rs ∧
      rs.map Prod.fst = ["Delivery", "Customer Service", "Product"] :=
  analyze_returns_one_result_per_theme_in_order echoClassifier "Great service"
    (by decide)
    (by
      intro p hp
      simp only [CONFIG_English, List.mem_cons, List.not_mem_nil, or_false] at hp
      rcases hp with rfl | rfl | rfl
      · exact ⟨"satisfied with delivery", 1, _, _, rfl, by decide⟩
      · exact ⟨"satisfied with customer service", 1, _, _, rfl, by decide⟩
      · exact ⟨"satisfied with product", 1, _, _, rfl, by decide⟩)

/-- C7: the analysis is deterministic end-to-end: for one fixed
classifier that answers every call index alike (a deterministic,
unchanged model), two runs on the same text from any two process states
sharing the same configuration — in particular the states before and
after an earlier run — produce identical result sequences. -/
theorem analyze_deterministic :
    ∀ (c : SClassifier),
      (∀ n m t ls b, c n t ls b = c m t ls b) →
      ∀ (text : String) (st1 st2 : ProcState), st1.config = st2.config →
        (analyzeAspectsS c text st1).1 = (analyzeAspectsS c text st2).1 := by
  intro c hdet text st1 st2 hcfg
  rw [analyzeAspectsS_fst, analyzeAspectsS_fst, hcfg]
  exact runAspects_fst_congr c text hdet st2.config.aspects st1.nCalls st2.nCalls

/-- A deterministic classifier used by the witness of C7. -/
def steadyClassifier : SClassifier :=
  fun _ _ ls _ => { labels := ls, scores := [1, 1, 1, 1] }

theorem analyze_deterministic_witness :
    (analyzeAspectsS steadyClassifier "Great service"
       { config := CONFIG_English, nCalls := 0 }).1 =
    (analyzeAspectsS steadyClassifier "Great service"
       { config := CONFIG_English, nCalls := 3 }).1 :=
  analyze_deterministic steadyClassifier (fun _ _ _ _ _ => rfl) "Great service"
    { config := CONFIG_English, nCalls := 0 }
    { config := CONFIG_English, nCalls := 3 } rfl

/-- C8: every theme of both shipped configurations carries between 3 and
4 candidate labels of which exactly one is the sentinel, and the analysis
performs single-label selection: it consults the classifier only at
`multi_label=False` and only through the single top-ranked label and
score of each per-theme call. -/
theorem label_sets_small_with_unique_sentinel_single_label :
    (∀ p ∈ bothAspects,
        3 ≤ p.2.labels.length ∧ p.2.labels.length ≤ 4 ∧
        (p.2.labels.filter (fun l => isSentinel p.2 l)).length = 1) ∧
    (∀ (c1 c2 : SClassifier),
      (∀ n t ls, (c1 n t ls false).labels.head? = (c2 n t ls false).labels.head? ∧
                 (c1 n t ls false).scores.head? = (c2 n t ls false).scores.head?) →
      ∀ (text : String) (st : ProcState),
        analyzeAspectsS c1 text st = analyzeAspectsS c2 text st) := by
  constructor
  · decide
  · intro c1 c2 h text st
    unfold analyzeAspectsS
    rw [runAspects_congr c1 c2 text (fun n ls => h n text ls) st.config.aspects
        st.nCalls]

/-- First classifier of the C8 witness pair. -/
def topClassifierA : SClassifier :=
  fun _ _ ls _ => { labels := ls, scores := [1, 2, 3, 4] }

/-- Second classifier of the C8 witness pair: same top label and score,
different tail scores. -/
def topClassifierB : SClassifier :=
  fun _ _ ls _ => { labels := ls, scores := [1, 9, 9, 9] }

theorem label_sets_small_with_unique_sentinel_single_label_witness :
    (deliveryData.labels.filter (fun l => isSentinel deliveryData l)).length = 1 ∧
    analyzeAspectsS topClassifierA "Great service"
        { config := CONFIG_English, nCalls := 0 } =
      analyzeAspectsS topClassifierB "Great service"
        { config := CONFIG_English, nCalls := 0 } :=
  ⟨(label_sets_small_with_unique_sentinel_single_label.1
      ("Delivery", deliveryData) (by decide)).2.2,
   label_sets_small_with_unique_sentinel_single_label.2 topClassifierA
     topClassifierB (fun _ _ _ => ⟨rfl, rfl⟩) "Great service"
     { config := CONFIG_English, nCalls := 0 }⟩

/-- C9: neither the analysis nor the button handler mutates the shared
configuration: the configuration component of the process state after a
call is the configuration before it, for every classifier, text and
starting state. -/
theorem analyze_preserves_config :
    ∀ (c : SClassifier) (text : String) (st : ProcState),
      (analyzeAspectsS c text st).2.config = st.config ∧
      (analyzeButtonHandler c text st).2.config = st.config := by
  intro c text st
  refine ⟨analyzeAspectsS_config c text st, ?_⟩
  unfold analyzeButtonHandler
  by_cases h : pyStrip text = ""
  · rw [if_pos h]
  · rw [if_neg h]
    rcases hx : analyzeAspectsS c text st with ⟨res, st2⟩
    have hconf : st2.config = st.config := by
      have := analyzeAspectsS_config c text st
      rw [hx] at this
      exact this
    cases res <;> simpa using hconf
